import Mathlib

set_option linter.unusedVariables false

/-!
Verification of the MESA summary-evaluation pipeline (src/src/*.py) against its
natural-language specification.

The Python modules are shallowly embedded:
  * Python values flowing through the pipelines (JSON-decoded model replies,
    assessment dictionaries, fitting records) become the inductive `PyVal`;
    fallible dictionary/attribute accesses become `Except PyErr` computations.
  * `json.loads` becomes the executable strict-JSON parser `json_loads`
    (`NaN`/`Infinity` constants and lone-surrogate escapes are left out; no
    value used in this development touches them).
  * `str.strip(chars)` — which removes any characters of the *set* `chars`
    from both ends — becomes `pyStripChars`; the repeated
    `.strip() .strip("```json") .strip("```") .strip()` chain applied to every
    model reply becomes `cleanResponse`.
  * The LLM backend is an oracle: pipelines receive `model : Nat → Option String`
    giving the result of the n-th `ModelHandler.call_model_with_retry` call
    (`Option.none` is the documented `None` failure sentinel).  The retry layer
    itself is embedded separately with an explicit event trace.
-/

/-- Python runtime errors that the embedded code can raise. -/
inductive PyErr where
  | keyError (key : String)
  | attributeError
  | typeError
  | indexError
  | valueError
deriving DecidableEq, Repr

/-- Python values as they flow through the MESA pipelines: JSON-decoded
replies, assessment dicts, fitting records.  Dicts are insertion-ordered
association lists (Python 3.7+ semantics). -/
inductive PyVal where
  | pynone
  | bool (b : Bool)
  | num (q : ℚ)
  | str (s : String)
  | list (xs : List PyVal)
  | dict (xs : List (String × PyVal))

/-- Python truthiness (`if value:`). -/
def pyTruthy : PyVal → Bool
  | .pynone => false
  | .bool b => b
  | .num q => q != 0
  | .str s => !s.isEmpty
  | .list xs => !xs.isEmpty
  | .dict xs => !xs.isEmpty

/-- `value[key]` on a Python value: `KeyError` for a missing dict key,
`TypeError` when subscripting a non-dict with a string key. -/
def pyGetItem (v : PyVal) (k : String) : Except PyErr PyVal :=
  match v with
  | .dict xs =>
    match xs.lookup k with
    | some r => .ok r
    | Option.none => .error (.keyError k)
  | _ => .error .typeError

/-- `value.get(key, default)`: `AttributeError` when the receiver is not a dict. -/
def pyGetD (v : PyVal) (k : String) (dflt : PyVal) : Except PyErr PyVal :=
  match v with
  | .dict xs => .ok ((xs.lookup k).getD dflt)
  | _ => .error .attributeError

/-- Numeric coercion as used in arithmetic contexts (Python bools are ints). -/
def asNum : PyVal → Except PyErr ℚ
  | .num q => .ok q
  | .bool b => .ok (if b then 1 else 0)
  | _ => .error .typeError

/-- Integer view of a Python value; the embedding keeps Likert scores as
integers, so a non-integral number is rejected here. -/
def asInt : PyVal → Except PyErr ℤ
  | .num q => if q.den = 1 then .ok q.num else .error .typeError
  | .bool b => .ok (if b then 1 else 0)
  | _ => .error .typeError

/-- Iterating a Python value (`for x in v`): lists give elements, dicts give
their keys, strings give characters; other values raise `TypeError`. -/
def pyIter : PyVal → Except PyErr (List PyVal)
  | .list xs => .ok xs
  | .dict xs => .ok (xs.map (fun p => .str p.1))
  | .str s => .ok (s.data.map (fun c => .str (String.mk [c])))
  | _ => .error .typeError

/-- `l[i]` on a Python list with a non-negative index. -/
def pyListGet (l : List PyVal) (i : Nat) : Except PyErr PyVal :=
  match l[i]? with
  | some v => .ok v
  | Option.none => .error .indexError

/-- ASCII upper-casing of one character (`str.upper`; all strings in this
code base are ASCII). -/
def upperChar (c : Char) : Char :=
  if 'a' ≤ c ∧ c ≤ 'z' then Char.ofNat (c.toNat - 32) else c

/-- `str.upper()` (ASCII). -/
def pyUpper (s : String) : String := String.mk (s.data.map upperChar)

/-- ASCII lower-casing of one character. -/
def lowerChar (c : Char) : Char :=
  if 'A' ≤ c ∧ c ≤ 'Z' then Char.ofNat (c.toNat + 32) else c

/-- `str.lower()` (ASCII). -/
def pyLower (s : String) : String := String.mk (s.data.map lowerChar)

/-! ## Python `str.strip`

`s.strip(chars)` removes, from both ends, every character that is a member of
the character set `chars`; `s.strip()` removes whitespace. -/

/-- Default whitespace set of `str.strip()`. -/
def pyWsChars : List Char := [' ', '\t', '\n', '\r', '\x0B', '\x0C']

/-- The character set of `.strip("```json")`. -/
def fenceJsonChars : List Char := "```json".data

/-- The character set of `.strip("```")`. -/
def backtick3Chars : List Char := "```".data

/-- Core of `str.strip(chars)` on the character list. -/
def pyStripList (chars : List Char) (l : List Char) : List Char :=
  ((l.dropWhile (fun c => chars.contains c)).reverse.dropWhile
    (fun c => chars.contains c)).reverse

/-- `s.strip(chars)`. -/
def pyStripChars (chars : List Char) (s : String) : String :=
  String.mk (pyStripList chars s.data)

/-- `s.strip()`. -/
def pyStripWs (s : String) : String := pyStripChars pyWsChars s

/-- The reply-cleaning chain applied after every model call before JSON
decoding: `content.strip().strip("```json").strip("```").strip()`
(`eval_pipeline.task_execution`, `baseline_pipeline.pipeline`,
`simple_baseline_pipeline.pipeline`, `panel.call_gpt`). -/
def cleanResponse (s : String) : String :=
  pyStripWs (pyStripChars backtick3Chars (pyStripChars fenceJsonChars (pyStripWs s)))

example : pyStripWs "  ab " = "ab" := by decide
example : cleanResponse "```json [1] ```" = "[1]" := by decide
example : cleanResponse "null" = "ull" := by decide

/-! ## `json.loads`

An executable model of Python's strict JSON decoder.  Whitespace handling,
the number grammar (including the `0`-vs-`[1-9]` leading rule and the
"extra data" check at top level), string escapes and last-wins duplicate
object keys follow the stdlib decoder.  The optional `NaN`/`Infinity`
constants and lone-surrogate `\u` escapes are not modelled. -/

/-- JSON whitespace (` \t\n\r`). -/
def jsonWsChars : List Char := [' ', '\t', '\n', '\r']

def skipJsonWs (l : List Char) : List Char :=
  l.dropWhile (fun c => jsonWsChars.contains c)

/-- Value of a hexadecimal digit. -/
def hexVal (c : Char) : Option Nat :=
  if c.isDigit then some (c.toNat - 48)
  else if 'a' ≤ c ∧ c ≤ 'f' then some (c.toNat - 87)
  else if 'A' ≤ c ∧ c ≤ 'F' then some (c.toNat - 55)
  else Option.none

/-- JSON string body scanner (opening quote already consumed). -/
def parseJStringAux (acc : List Char) : List Char → Option (String × List Char)
  | '"' :: rest => some (String.mk acc.reverse, rest)
  | '\\' :: 'u' :: h1 :: h2 :: h3 :: h4 :: rest =>
    match hexVal h1, hexVal h2, hexVal h3, hexVal h4 with
    | some a, some b, some c, some d =>
      let n := ((a * 16 + b) * 16 + c) * 16 + d
      if h : n.isValidChar then parseJStringAux (Char.ofNatAux n h :: acc) rest
      else Option.none
    | _, _, _, _ => Option.none
  | '\\' :: e :: rest =>
    if e = '"' then parseJStringAux ('"' :: acc) rest
    else if e = '\\' then parseJStringAux ('\\' :: acc) rest
    else if e = '/' then parseJStringAux ('/' :: acc) rest
    else if e = 'b' then parseJStringAux ('\x08' :: acc) rest
    else if e = 'f' then parseJStringAux ('\x0C' :: acc) rest
    else if e = 'n' then parseJStringAux ('\n' :: acc) rest
    else if e = 'r' then parseJStringAux ('\r' :: acc) rest
    else if e = 't' then parseJStringAux ('\t' :: acc) rest
    else Option.none
  | c :: rest => if c.toNat < 32 then Option.none else parseJStringAux (c :: acc) rest
  | [] => Option.none

/-- Digits to a natural number. -/
def natOfDigits (ds : List Char) : Nat :=
  ds.foldl (fun a c => a * 10 + (c.toNat - 48)) 0

/-- Optional exponent part `([eE][-+]?\d+)`; `Option.none` means the exponent
group does not match here and consumes nothing. -/
def parseJExp : List Char → Option (Bool × Nat × List Char)
  | e :: r =>
    if e = 'e' ∨ e = 'E' then
      match r with
      | '+' :: r2 =>
        match r2.span Char.isDigit with
        | ([], _) => Option.none
        | (ds, rest) => some (false, natOfDigits ds, rest)
      | '-' :: r2 =>
        match r2.span Char.isDigit with
        | ([], _) => Option.none
        | (ds, rest) => some (true, natOfDigits ds, rest)
      | _ =>
        match r.span Char.isDigit with
        | ([], _) => Option.none
        | (ds, rest) => some (false, natOfDigits ds, rest)
    else Option.none
  | [] => Option.none

/-- Fraction and exponent after the integer part of a JSON number. -/
def parseJAfterInt (neg : Bool) (ip : Nat) (l : List Char) : ℚ × List Char :=
  let (fracDigits, l2) :=
    match l with
    | '.' :: r =>
      (match r.span Char.isDigit with
       | ([], _) => (([] : List Char), '.' :: r)
       | (ds, rest) => (ds, rest))
    | _ => (([] : List Char), l)
  let (expNeg, expVal, l3) :=
    match parseJExp l2 with
    | some (en, ev, rest) => (en, ev, rest)
    | Option.none => (false, 0, l2)
  let mant : ℚ := (ip : ℚ) + (natOfDigits fracDigits : ℚ) / 10 ^ fracDigits.length
  let e : ℤ := if expNeg then -(expVal : ℤ) else (expVal : ℤ)
  ((if neg then -1 else 1) * mant * 10 ^ e, l3)

/-- JSON number (`-?(0|[1-9]\d*)(\.\d+)?([eE][-+]?\d+)?`). -/
def parseJNumber (l : List Char) : Option (ℚ × List Char) :=
  let (neg, l1) := match l with | '-' :: r => (true, r) | _ => (false, l)
  match l1 with
  | '0' :: r => some (parseJAfterInt neg 0 r)
  | c :: r =>
    if c.isDigit then
      match (c :: r).span Char.isDigit with
      | (ds, rest) => some (parseJAfterInt neg (natOfDigits ds) rest)
    else Option.none
  | [] => Option.none

/-- Insert-or-replace for parsed JSON objects (Python dict semantics:
later duplicate keys overwrite in place). -/
def dictInsert (xs : List (String × PyVal)) (k : String) (v : PyVal) :
    List (String × PyVal) :=
  match xs with
  | [] => [(k, v)]
  | (k0, v0) :: rest =>
    if k0 = k then (k0, v) :: rest else (k0, v0) :: dictInsert rest k v

/-- What the JSON scanner is currently parsing: one value, the items of an
array (after the opening bracket), or the members of an object (after the
opening brace, with the accumulated members so far).  A single structurally
recursive function over the three tasks keeps every computation
kernel-reducible. -/
inductive JTask where
  | value
  | items
  | members (acc : List (String × PyVal))

/-- Fuel-indexed core of the JSON decoder.  The `items` task returns
`PyVal.list`, the `members` task returns `PyVal.dict`. -/
def parseJCore : Nat → JTask → List Char → Option (PyVal × List Char)
  | 0, _, _ => Option.none
  | Nat.succ k, .value, l =>
    match l with
    | 'n' :: 'u' :: 'l' :: 'l' :: r => some (.pynone, r)
    | 't' :: 'r' :: 'u' :: 'e' :: r => some (.bool true, r)
    | 'f' :: 'a' :: 'l' :: 's' :: 'e' :: r => some (.bool false, r)
    | '"' :: r =>
      match parseJStringAux [] r with
      | some (s, rest) => some (.str s, rest)
      | Option.none => Option.none
    | '[' :: r =>
      match skipJsonWs r with
      | ']' :: r2 => some (.list [], r2)
      | r2 => parseJCore k .items r2
    | '{' :: r =>
      match skipJsonWs r with
      | '}' :: r2 => some (.dict [], r2)
      | r2 => parseJCore k (.members []) r2
    | _ =>
      match parseJNumber l with
      | some (q, rest) => some (.num q, rest)
      | Option.none => Option.none
  | Nat.succ k, .items, l =>
    match parseJCore k .value l with
    | Option.none => Option.none
    | some (v, rest) =>
      match skipJsonWs rest with
      | ',' :: r2 =>
        match parseJCore k .items (skipJsonWs r2) with
        | some (.list xs, rest2) => some (.list (v :: xs), rest2)
        | _ => Option.none
      | ']' :: r2 => some (.list [v], r2)
      | _ => Option.none
  | Nat.succ k, .members acc, l =>
    match l with
    | '"' :: r =>
      match parseJStringAux [] r with
      | Option.none => Option.none
      | some (key, rest) =>
        match skipJsonWs rest with
        | ':' :: r2 =>
          match parseJCore k .value (skipJsonWs r2) with
          | Option.none => Option.none
          | some (v, rest2) =>
            match skipJsonWs rest2 with
            | ',' :: r3 => parseJCore k (.members (dictInsert acc key v)) (skipJsonWs r3)
            | '}' :: r3 => some (.dict (dictInsert acc key v), r3)
            | _ => Option.none
        | _ => Option.none
    | _ => Option.none

/-- One JSON value at the head of `l` (whitespace already skipped). -/
def parseJValue (fuel : Nat) (l : List Char) : Option (PyVal × List Char) :=
  parseJCore fuel .value l

/-- `json.loads`: skip whitespace, parse one value, skip whitespace, and
require the input to be exhausted ("Extra data" otherwise). -/
def json_loads (s : String) : Option PyVal :=
  match parseJValue (2 * s.length + 2) (skipJsonWs s.data) with
  | some (v, rest) => if (skipJsonWs rest).isEmpty then some v else Option.none
  | Option.none => Option.none

example : json_loads "null" = some PyVal.pynone := by rfl
example : json_loads "ull" = Option.none := by rfl
example : json_loads " [true, \"a\"] " =
    some (PyVal.list [.bool true, .str "a"]) := by rfl
example : json_loads "\x7b\"a\": \"x\", \"b\": null\x7d" =
    some (PyVal.dict [("a", .str "x"), ("b", .pynone)]) := by rfl
example : json_loads "01" = Option.none := by rfl
example : json_loads "not json" = Option.none := by rfl

/-! ## `ModelHandler.call_model_with_retry`

The network call is an oracle `call : Nat → CallOutcome` giving the outcome
of each attempt; `random.randint(0, 1000)` is an oracle `jitterMs`.  The
embedding returns the Python function's result (`Option.none` models the
`None` failure sentinel) together with the ordered trace of attempts and
`time.sleep` calls, so the backoff behaviour is part of the statement. -/

/-- Outcome of one `_call_gpt` attempt: a reply, or a raised exception with
its message (`str(exc)`). -/
inductive CallOutcome where
  | ok (resp : String)
  | err (msg : String)
deriving DecidableEq

/-- Observable events of one `call_model_with_retry` run. -/
inductive RetryEvent where
  | attempt (i : Nat) (out : CallOutcome)
  | sleep (t : ℚ)
deriving DecidableEq

/-- Whether `"429" in str(exc)` holds, on the character list. -/
def has429 : List Char → Bool
  | '4' :: '2' :: '9' :: _ => true
  | _ :: rest => has429 rest
  | [] => false

/-- `"429" in str(exc)`. -/
def contains429 (s : String) : Bool := has429 s.data

/-- The backoff sleep before retry `attempt + 1`:
`(2 ** (attempt + 1)) + (random.randint(0, 1000) / 1000)`. -/
def backoffSleep (jitterMs : Nat → Nat) (attempt : Nat) : ℚ :=
  2 ^ (attempt + 1) + (jitterMs attempt : ℚ) / 1000

/-- The retry loop (`for attempt in range(max_attempts)`), with `s` the
current attempt index.  On success the reply is returned (the `finally`
block still sleeps `base_delay`); a 429-signalling error sleeps the backoff
plus `base_delay` and retries; any other error breaks out of the loop (the
`finally` block still runs), after which `None` is returned. -/
def retryAux (call : Nat → CallOutcome) (jitterMs : Nat → Nat) (base_delay : ℚ) :
    Nat → Nat → Option String × List RetryEvent
  | 0, _ => (Option.none, [])
  | Nat.succ k, s =>
    match call s with
    | .ok r => (some r, [.attempt s (.ok r), .sleep base_delay])
    | .err m =>
      if contains429 m then
        let rest := retryAux call jitterMs base_delay k (s + 1)
        (rest.1, .attempt s (.err m) :: .sleep (backoffSleep jitterMs s) ::
          .sleep base_delay :: rest.2)
      else
        (Option.none, [.attempt s (.err m), .sleep base_delay])

/-- `ModelHandler.call_model_with_retry` (defaults `max_attempts=6`,
`base_delay=3.0`): result and event trace. -/
def call_model_with_retry (call : Nat → CallOutcome) (jitterMs : Nat → Nat)
    (max_attempts : Nat) (base_delay : ℚ) : Option String × List RetryEvent :=
  retryAux call jitterMs base_delay max_attempts 0

/-- The events one attempt `i` contributes to the trace. -/
def attemptBlock (call : Nat → CallOutcome) (jitterMs : Nat → Nat)
    (base_delay : ℚ) (i : Nat) : List RetryEvent :=
  match call i with
  | .ok r => [.attempt i (.ok r), .sleep base_delay]
  | .err m =>
    if contains429 m then
      [.attempt i (.err m), .sleep (backoffSleep jitterMs i), .sleep base_delay]
    else
      [.attempt i (.err m), .sleep base_delay]

/-- `call i` failed with a rate-limit-signalling message. -/
def is429Err (call : Nat → CallOutcome) (i : Nat) : Prop :=
  ∃ m, call i = .err m ∧ contains429 m = true

/-- Characterization of the retry loop from attempt `s` with fuel `k`:
some number `j ≤ k` of consecutive attempts happen, the trace is exactly
their blocks, every non-final attempt failed with a 429 signal, and the
result is determined by the final attempt. -/
theorem retryAux_spec (call : Nat → CallOutcome) (jitterMs : Nat → Nat)
    (base_delay : ℚ) :
    ∀ k s, ∃ j, j ≤ k ∧
      (retryAux call jitterMs base_delay k s).2 =
        (List.range' s j).flatMap (attemptBlock call jitterMs base_delay) ∧
      (∀ i, s ≤ i → i + 1 < s + j → is429Err call i) ∧
      ((∃ r, (retryAux call jitterMs base_delay k s).1 = some r ∧ 0 < j ∧
          call (s + j - 1) = .ok r) ∨
        ((retryAux call jitterMs base_delay k s).1 = Option.none ∧
          ((j = k ∧ ∀ i, s ≤ i → i < s + j → is429Err call i) ∨
            (0 < j ∧ ∃ m, call (s + j - 1) = .err m ∧ contains429 m = false)))) := by
  intro k
  induction k with
  | zero =>
    intro s
    refine ⟨0, le_refl 0, by simp [retryAux], ?_, ?_⟩
    · intro i h1 h2; omega
    · exact Or.inr ⟨rfl, Or.inl ⟨rfl, by intro i h1 h2; omega⟩⟩
  | succ k ih =>
    intro s
    cases hc : call s with
    | ok r =>
      refine ⟨1, by omega, ?_, ?_, ?_⟩
      · simp [retryAux, hc, attemptBlock, List.range']
      · intro i h1 h2; omega
      · refine Or.inl ⟨r, by simp [retryAux, hc], by omega, ?_⟩
        simpa using hc
    | err m =>
      by_cases h429 : contains429 m = true
      · obtain ⟨j, hj, htr, hmid, hres⟩ := ih (s + 1)
        have hstep2 : (retryAux call jitterMs base_delay (k + 1) s).2 =
            RetryEvent.attempt s (.err m) ::
              RetryEvent.sleep (backoffSleep jitterMs s) ::
              RetryEvent.sleep base_delay ::
              (retryAux call jitterMs base_delay k (s + 1)).2 := by
          simp [retryAux, hc, h429]
        have hstep1 : (retryAux call jitterMs base_delay (k + 1) s).1 =
            (retryAux call jitterMs base_delay k (s + 1)).1 := by
          simp [retryAux, hc, h429]
        have hidx : s + 1 + j - 1 = s + (j + 1) - 1 := by omega
        refine ⟨j + 1, by omega, ?_, ?_, ?_⟩
        · rw [hstep2, htr]
          have hr : List.range' s (j + 1) = s :: List.range' (s + 1) j := by
            simp [List.range'_succ]
          rw [hr, List.flatMap_cons]
          simp [attemptBlock, hc, h429]
        · intro i h1 h2
          rcases Nat.eq_or_lt_of_le h1 with h | h
          · exact ⟨m, h ▸ hc, h429⟩
          · exact hmid i h (by omega)
        · rcases hres with ⟨r, hr1, hr2, hr3⟩ | ⟨hr1, hr2⟩
          · refine Or.inl ⟨r, ?_, by omega, ?_⟩
            · rw [hstep1]; exact hr1
            · rw [← hidx]; exact hr3
          · refine Or.inr ⟨by rw [hstep1]; exact hr1, ?_⟩
            rcases hr2 with ⟨hj2, hall⟩ | ⟨hj2, m2, hm2, hm3⟩
            · refine Or.inl ⟨by omega, ?_⟩
              intro i h1 h2
              rcases Nat.eq_or_lt_of_le h1 with h | h
              · exact ⟨m, h ▸ hc, h429⟩
              · exact hall i h (by omega)
            · refine Or.inr ⟨by omega, m2, ?_, hm3⟩
              rw [← hidx]; exact hm2
      · have h429f : contains429 m = false := by
          revert h429; cases contains429 m <;> simp
        refine ⟨1, by omega, ?_, ?_, ?_⟩
        · simp [retryAux, hc, h429f, attemptBlock, List.range']
        · intro i h1 h2; omega
        · refine Or.inr ⟨by simp [retryAux, hc, h429f], Or.inr ⟨by omega, m, ?_, h429f⟩⟩
          simpa using hc

/-! ## Evaluation pipelines

Each pipeline takes the loaded criterion names (a `List String`, in the
insertion order of the criteria dict) and the model-call oracle
`model : Nat → Option String`: the `i`-th entry is the result of the `i`-th
`call_model_with_retry` invocation — `some content` for a reply
(`response_raw.choices[0].message.content`), `Option.none` for the `None`
failure sentinel.  Dereferencing the sentinel
(`response_raw.choices` on `None`) raises `AttributeError`. -/

/-- The zeroed default score substituted by `BaselinePipeline.pipeline` when
the reply is not valid JSON. -/
def zeroedScore : PyVal :=
  .dict [("reasoning", .str ""), ("confidence", .num 0), ("rating", .num 0)]

/-- `BaselinePipeline.pipeline`: one model call, clean the reply, JSON-decode;
on decode failure return the zeroed score. -/
def BaselinePipeline_pipeline (resp : Option String) : Except PyErr PyVal :=
  match resp with
  | Option.none => .error .attributeError
  | some content =>
    match json_loads (cleanResponse content) with
    | some parsed => .ok parsed
    | Option.none => .ok zeroedScore

/-- The assessment record built by `BaselinePipeline.run` for one criterion. -/
def baselineAssessment (c : String) (score : PyVal) : PyVal :=
  .dict [("criteria", .str c), ("selection", .str ""), ("filter", .str ""),
    ("score", score)]

/-- Loop body of `BaselinePipeline.run`: one pipeline call per criterion,
appending one assessment each. -/
def BaselinePipeline_runAux (model : Nat → Option String) :
    List String → Nat → Except PyErr (List PyVal)
  | [], _ => .ok []
  | c :: rest, i =>
    match BaselinePipeline_pipeline (model i) with
    | .error e => .error e
    | .ok score =>
      match BaselinePipeline_runAux model rest (i + 1) with
      | .error e => .error e
      | .ok tail => .ok (baselineAssessment c score :: tail)

/-- `BaselinePipeline.run` (the ONE_BY_ONE strategy). -/
def BaselinePipeline_run (criteria : List String) (model : Nat → Option String) :
    Except PyErr (List PyVal) :=
  BaselinePipeline_runAux model criteria 0

/-- Truncation toward zero, as Python's `int()` on a float. -/
def ratTrunc (q : ℚ) : ℤ := if 0 ≤ q then ⌊q⌋ else ⌈q⌉

/-- Python `int(value)` for the values that can appear here. -/
def pyInt (v : PyVal) : Except PyErr PyVal :=
  match v with
  | .num q => .ok (.num (ratTrunc q))
  | .bool b => .ok (.num (if b then 1 else 0))
  | _ => .error .typeError

/-- `SimpleBaselinePipeline.pipeline`: a single model call covering all
criteria; on decode failure return the empty mapping. -/
def SimpleBaselinePipeline_pipeline (resp : Option String) : Except PyErr PyVal :=
  match resp with
  | Option.none => .error .attributeError
  | some content =>
    match json_loads (cleanResponse content) with
    | some parsed => .ok parsed
    | Option.none => .ok (.dict [])

/-- The fan-out loop of `SimpleBaselinePipeline.run`: one assessment per key
of the parsed reply (`for crit_name, details in score.items()`), with
`.get` defaults and `int()` coercions. -/
def SimpleBaseline_build : List (String × PyVal) → Except PyErr (List PyVal)
  | [] => .ok []
  | (crit_name, details) :: rest => do
    let reasoning ← pyGetD details "reasoning" (.str "")
    let confRaw ← pyGetD details "confidence" (.num 0)
    let conf ← pyInt confRaw
    let ratRaw ← pyGetD details "rating" (.num 0)
    let rat ← pyInt ratRaw
    let tail ← SimpleBaseline_build rest
    .ok (.dict [("criteria", .str crit_name), ("selection", .str ""),
      ("filter", .str ""),
      ("score", .dict [("reasoning", reasoning), ("confidence", conf),
        ("rating", rat)])] :: tail)

/-- `SimpleBaselinePipeline.run` (the ALL_AT_ONCE strategy).  Note that the
loaded criteria only feed the prompt: the returned assessments are derived
from the keys of the parsed model reply.  `.items()` on a non-dict reply
raises `AttributeError`. -/
def SimpleBaselinePipeline_run (criteria : List String)
    (model : Nat → Option String) : Except PyErr (List PyVal) :=
  match SimpleBaselinePipeline_pipeline (model 0) with
  | .error e => .error e
  | .ok score =>
    match score with
    | .dict entries => SimpleBaseline_build entries
    | _ => .error .attributeError

/-! ## `EvalPipeline.compute_quality_score` -/

/-- The default importance weights of `compute_quality_score`. -/
def defaultWeights : List (String × ℚ) :=
  [("omission", 11/10), ("hallucination", 11/10), ("irrelevance", 11/10),
   ("repetition", 9/10), ("incoherence", 9/10), ("language", 9/10)]

/-- `weights.get(key, 1.0)`. -/
def assocGetD (xs : List (String × ℚ)) (k : String) (d : ℚ) : ℚ :=
  (xs.lookup k).getD d

/-- `entry['criteria'].upper()`: the criteria value must be a string. -/
def pyUpperOf (v : PyVal) : Except PyErr String :=
  match v with
  | .str s => .ok (pyUpper s)
  | _ => .error .attributeError

/-- Accumulation loop of `compute_quality_score`: per entry, read
`entry['criteria']` (upper-cased), `entry['certainty']` and `entry['rating']`,
look the upper-cased name up in the weight table (default `1.0`), and add
`rating * (certainty * importance)` to the numerator and
`certainty * importance` to the denominator. -/
def cqs_go (w : List (String × ℚ)) :
    List PyVal → ℚ → ℚ → Except PyErr (ℚ × ℚ)
  | [], n, d => .ok (n, d)
  | entry :: rest, n, d => do
    let cv ← pyGetItem entry "criteria"
    let criteria ← pyUpperOf cv
    let certv ← pyGetItem entry "certainty"
    let certainty ← asNum certv
    let ratv ← pyGetItem entry "rating"
    let rating ← asNum ratv
    let importance := assocGetD w criteria 1
    cqs_go w rest (n + rating * (certainty * importance))
      (d + certainty * importance)

/-- `EvalPipeline.compute_quality_score(scores, importance_weights=None)`:
`impact = numerator / denominator` (0 when the denominator is 0) and
`quality = 1 + ((5 - impact) / 5) * 9`. -/
def compute_quality_score (scores : List PyVal)
    (importance_weights : Option (List (String × ℚ))) : Except PyErr ℚ := do
  let w := importance_weights.getD defaultWeights
  let (numerator, denominator) ← cqs_go w scores 0 0
  let impact := if denominator ≠ 0 then numerator / denominator else 0
  .ok (1 + ((5 - impact) / 5) * 9)

/-! ## `EvalPipeline` (THREE_STEP) -/

/-- `EvalPipeline.task_execution` (single-model branch): clean the reply and
JSON-decode it; on decode failure both the value and the log are the cleaned
raw text. -/
def EvalPipeline_task_execution (resp : Option String) :
    Except PyErr (PyVal × PyVal) :=
  match resp with
  | Option.none => .error .attributeError
  | some content =>
    let response_text := cleanResponse content
    match json_loads response_text with
    | some parsed => .ok (parsed, parsed)
    | Option.none => .ok (.str response_text, .str response_text)

/-- `EvalPipeline.pipeline` for one criterion: the three steps (collect,
filter, rate) are three consecutive oracle calls starting at index `base`.
After step 3 the code logs `final_score.get("rating")` and
`final_score.get("confidence")`, which raises `AttributeError` whenever the
step-3 reply did not decode to a dict. -/
def EvalPipeline_pipeline (model : Nat → Option String) (base : Nat) :
    Except PyErr (PyVal × PyVal × PyVal × PyVal) := do
  let (list_of_instances, log_instances) ← EvalPipeline_task_execution (model base)
  let (list_filtered, log_filtered) ← EvalPipeline_task_execution (model (base + 1))
  let (final_score, log_final) ← EvalPipeline_task_execution (model (base + 2))
  let _ ← pyGetD final_score "rating" .pynone
  let _ ← pyGetD final_score "confidence" .pynone
  .ok (final_score, list_of_instances, list_filtered,
    .dict [("instances", log_instances), ("filter", log_filtered),
      ("final", log_final)])

/-- Loop body of `EvalPipeline.run`: three oracle calls per criterion. -/
def EvalPipeline_runAux (model : Nat → Option String) :
    List String → Nat → Except PyErr (List PyVal)
  | [], _ => .ok []
  | c :: rest, base => do
    let (score, selection, filter_output, protocol) ← EvalPipeline_pipeline model base
    let tail ← EvalPipeline_runAux model rest (base + 3)
    .ok (.dict [("criteria", .str c), ("selection", selection),
      ("filter", filter_output), ("score", score), ("protocol", protocol)] :: tail)

/-- `EvalPipeline.run`: the per-criterion assessments followed by
`compute_quality_score(scores)` on those very assessment dicts. -/
def EvalPipeline_run (criteria : List String) (model : Nat → Option String) :
    Except PyErr (List PyVal × ℚ) := do
  let scores ← EvalPipeline_runAux model criteria 0
  let quality ← compute_quality_score scores Option.none
  .ok (scores, quality)

/-! ## `Fitting` -/

/-- `Fitting.likert_score_feedback`: categorical distance between the metric
score and the human score, with the detail message.  The source computes
`difference = abs(metric_score - human_score)` up front; it is inlined at
each use here. -/
def likert_score_feedback (metric_score human_score : ℤ) : String × String :=
  if metric_score = 0 ∧ human_score ≥ 1 then
    ("Error Detection Discrepancy",
      "Metric: 0 vs. Human: " ++ toString human_score ++ " (Human detects an error).")
  else if metric_score ≥ 1 ∧ human_score = 0 then
    ("Error Detection Discrepancy",
      "Metric: " ++ toString metric_score ++ " vs. Human: 0 (Metric detects an error).")
  else if (metric_score - human_score).natAbs = 0 then
    ("No Difference",
      "Scores match exactly. (Human: " ++ toString human_score ++ "; Metric: " ++
        toString metric_score ++ ")")
  else if (metric_score - human_score).natAbs = 1 then
    ("Minor Difference",
      "Scores differ by 1 point. (Human: " ++ toString human_score ++ "; Metric: " ++
        toString metric_score ++ ")")
  else if (metric_score - human_score).natAbs = 2 then
    ("Moderate Difference",
      "Scores differ by 2 points. (Human: " ++ toString human_score ++ "; Metric: " ++
        toString metric_score ++ ")")
  else
    ("Major Difference",
      "Scores differ by >= 3 points. (Human: " ++ toString human_score ++ "; Metric: " ++
        toString metric_score ++ ")")

/-- `Fitting.reasoning_feedback`: one model call whose stripped reply text is
returned verbatim (`response_raw.choices[0].message.content.strip()`; crashes
on the `None` sentinel). -/
def Fitting_reasoning_feedback (resp : Option String) : Except PyErr PyVal :=
  match resp with
  | Option.none => .error .attributeError
  | some s => .ok (.str (pyStripWs s))

/-- `Fitting.quality_report`: one model call; the stripped reply is strictly
JSON-decoded (note: no code-fence stripping here), falling back to the raw
text on decode failure. -/
def Fitting_quality_report (resp : Option String) : Except PyErr PyVal :=
  match resp with
  | Option.none => .error .attributeError
  | some s =>
    let text := pyStripWs s
    match json_loads text with
    | some v => .ok v
    | Option.none => .ok (.str text)

/-- Equality of hashable Python values as used for dict keys (numbers and
bools compare by numeric value; `Fitting.run` only ever groups by the string
criterion names). -/
def scalarEq : PyVal → PyVal → Bool
  | .num a, .num b => a == b
  | .num a, .bool b => a == (if b then 1 else 0)
  | .bool a, .num b => (if a then (1:ℚ) else 0) == b
  | .bool a, .bool b => a == b
  | .str a, .str b => a == b
  | .pynone, .pynone => true
  | _, _ => false

/-- Is the value unusable as a Python dict key (unhashable)? -/
def pyUnhashable : PyVal → Bool
  | .list _ => true
  | .dict _ => true
  | _ => false

/-- `grouped[error_type].append(feedback)` on an insertion-ordered group
list. -/
def groupAdd (groups : List (PyVal × List PyVal)) (key : PyVal) (v : PyVal) :
    List (PyVal × List PyVal) :=
  match groups with
  | [] => [(key, [v])]
  | (k0, vs) :: rest =>
    if scalarEq k0 key then (k0, vs ++ [v]) :: rest
    else (k0, vs) :: groupAdd rest key v

/-- Left-to-right grouping loop (`for feedback in feedback_list`). -/
def group_go : List PyVal → List (PyVal × List PyVal) →
    Except PyErr (List (PyVal × List PyVal))
  | [], acc => .ok acc
  | feedback :: rest, acc => do
    let error_type ← pyGetItem feedback "criteria"
    if pyUnhashable error_type then .error .typeError
    else group_go rest (groupAdd acc error_type feedback)

/-- `Fitting.group_feedback_by_error_type`: group the feedback records by
their `criteria` field, preserving first-seen key order. -/
def group_feedback_by_error_type (feedback_list : List PyVal) :
    Except PyErr (List (PyVal × List PyVal)) :=
  group_go feedback_list []

/-- The body of `Fitting.run`'s per-criterion loop: read the criterion name,
the metric rating and reasoning; take the human rating/reasoning from the
sample's human scores when they are truthy, else default to rating `0` and
empty reasoning; compute the categorical distance and ask the model for
reasoning feedback (one oracle call).  Returns the feedback record and the
next oracle index. -/
def fitting_feedback_item (model : Nat → Option String) (k : Nat)
    (item : PyVal) (human : PyVal) : Except PyErr (PyVal × Nat) := do
  let error_type ← pyGetItem item "criteria"
  let score1 ← pyGetItem item "score"
  let mrv ← pyGetItem score1 "rating"
  let metric_rating ← asInt mrv
  let score2 ← pyGetItem item "score"
  let _metric_reasoning ← pyGetItem score2 "reasoning"
  let human_rating ←
    if pyTruthy human then do
      let et ←
        match error_type with
        | .str s => Except.ok s
        | _ => Except.error PyErr.typeError
      let hv ← pyGetItem human et
      let hrv ← pyGetItem hv "impact"
      let hr ← asInt hrv
      let _hre ← pyGetItem hv "reasoning"
      pure hr
    else pure 0
  let distance := likert_score_feedback metric_rating human_rating
  let quality ← Fitting_reasoning_feedback (model k)
  pure (.dict [("criteria", error_type),
    ("distance", .list [.str distance.1, .str distance.2]),
    ("quality", quality)], k + 1)

/-- The per-criterion loop of `Fitting.run`
(`for criteria in working_sample["scores"]`), building
`feedback_per_criteria`. -/
def fitting_feedback_loop (model : Nat → Option String) :
    List PyVal → PyVal → Nat → Except PyErr (List PyVal × Nat)
  | [], _, k => .ok ([], k)
  | item :: rest, human, k => do
    let (fb, k1) ← fitting_feedback_item model k item human
    let (tail, k2) ← fitting_feedback_loop model rest human k1
    .ok (fb :: tail, k2)

/-- The per-group loop of `Fitting.run`
(`for group in grouped_feedback_by_error_type`): iterating the dict yields its
KEYS, so each `quality_report` call receives only the criterion name; the
produced list is bound to the sample-local `overall_quality`, which `run`
discards. -/
def fitting_groups_loop (model : Nat → Option String) :
    List (PyVal × List PyVal) → Nat → Except PyErr (List PyVal × Nat)
  | [], k => .ok ([], k)
  | (_key, _vs) :: rest, k => do
    let q ← Fitting_quality_report (model k)
    let (tail, k1) ← fitting_groups_loop model rest (k + 1)
    .ok (q :: tail, k1)

/-- Python truthiness of the `human_scores` argument (`None` or an empty list
are both falsy). -/
def humanTruthy : Option (List PyVal) → Bool
  | Option.none => false
  | some l => !l.isEmpty

/-- The per-sample loop of `Fitting.run` (`for index, model_score_dict in
scores.items()`), performed only for its oracle calls and possible errors:
nothing it computes is ever appended to `overall_quality`/`overall_reports`
at function scope. -/
def fitting_run_samples (model : Nat → Option String) :
    List (Nat × PyVal) → Option (List PyVal) → Nat → Except PyErr Nat
  | [], _, k => .ok k
  | (index, model_score) :: rest, human_scores, k => do
    let working_human ←
      if humanTruthy human_scores then pyListGet (human_scores.getD []) index
      else pure PyVal.pynone
    let items ← pyIter model_score
    let (fb, k1) ← fitting_feedback_loop model items working_human k
    let groups ← group_feedback_by_error_type fb
    let (_overall_quality, k2) ← fitting_groups_loop model groups k1
    fitting_run_samples model rest human_scores k2

/-- `Fitting.run(scores, human_scores)`: runs the whole comparison, then
returns `(overall_reports, overall_reports)` — and `overall_reports` is
initialised to `[]` and never appended to (every append in the source is
commented out), so the returned aggregate is always `([], [])`. -/
def Fitting_run (scores : List (Nat × PyVal)) (human_scores : Option (List PyVal))
    (model : Nat → Option String) : Except PyErr (List PyVal × List PyVal) := do
  let _ ← fitting_run_samples model scores human_scores 0
  .ok ([], [])

/-! ## Claims about the pipelines (C1, C2, C3) -/

/-- The score `BaselinePipeline.pipeline` produces for a reply `content`:
the decoded JSON, or the zeroed score when decoding fails. -/
def baseline_score_of (content : String) : PyVal :=
  match json_loads (cleanResponse content) with
  | some parsed => parsed
  | Option.none => zeroedScore

theorem BaselinePipeline_pipeline_some (content : String) :
    BaselinePipeline_pipeline (some content) = .ok (baseline_score_of content) := by
  cases h : json_loads (cleanResponse content) <;>
    simp [BaselinePipeline_pipeline, baseline_score_of, h]

theorem BaselinePipeline_runAux_replies (resp : Nat → String) :
    ∀ (l : List String) (i : Nat),
      BaselinePipeline_runAux (fun j => some (resp j)) l i =
        .ok ((l.enumFrom i).map
          (fun p => baselineAssessment p.2 (baseline_score_of (resp p.1)))) := by
  intro l
  induction l with
  | nil => intro i; rfl
  | cons c rest ih =>
    intro i
    simp [BaselinePipeline_runAux, BaselinePipeline_pipeline_some, ih (i + 1),
      List.enumFrom]

/-- C1 (counterexample): with one loaded criterion and a model reply that is
not valid JSON, the all-at-once pipeline returns an *empty* assessment list —
no entry (let alone a zeroed one) for the loaded criterion — refuting the
claim that every pipeline strategy yields exactly one entry per loaded
criterion with a zeroed score on failure. -/
theorem allAtOnce_completeness_cex :
    SimpleBaselinePipeline_run ["hallucination"] (fun _ => some "not json") =
      .ok [] ∧
    ([] : List PyVal).length ≠ (["hallucination"] : List String).length := by
  exact ⟨rfl, by decide⟩

/-- C1 (amended): for the one-by-one pipeline, whenever every criterion's
model call returns a textual reply, `run` yields exactly one assessment per
loaded criterion, in order, with the zeroed score `{reasoning:"",
confidence:0, rating:0}` substituted for a reply that fails JSON decoding
(e.g. the reply `"not json"`). -/
theorem oneByOne_completeness_of_replies (criteria : List String)
    (resp : Nat → String) :
    BaselinePipeline_run criteria (fun j => some (resp j)) =
      .ok (criteria.enum.map
        (fun p => baselineAssessment p.2 (baseline_score_of (resp p.1)))) ∧
    (criteria.enum.map
        (fun p => baselineAssessment p.2 (baseline_score_of (resp p.1)))).length =
      criteria.length ∧
    baseline_score_of "not json" = zeroedScore := by
  refine ⟨?_, by simp [List.enum_length], by rfl⟩
  unfold BaselinePipeline_run List.enum
  exact BaselinePipeline_runAux_replies resp criteria 0

/-- C2: on any non-empty criterion set the three-step pipeline's `run` never
returns: the assessments it builds nest the score under the `score` key
(naming the confidence `confidence`), while `compute_quality_score` reads the
top-level keys `certainty`/`rating`, so the aggregation raises
`KeyError('certainty')` — here evaluated with one criterion and every model
call answering a well-formed rating object. -/
theorem evalPipeline_run_keyError :
    EvalPipeline_run ["hallucination"]
      (fun _ => some "\x7b\"reasoning\": \"r\", \"confidence\": 5, \"rating\": 2\x7d") =
      .error (.keyError "certainty") := by
  rfl

/-- C3: when the Model Invoker returns its `None` failure sentinel for a
criterion's call, the three-step pipeline does not substitute a default: it
dereferences the sentinel (`response_raw.choices`) and the resulting
`AttributeError` propagates out of `run` to the caller. -/
theorem evalPipeline_run_sentinel_crash :
    EvalPipeline_run ["hallucination"] (fun _ => Option.none) =
      .error .attributeError := by
  rfl

/-! ## Claims about `Fitting` (C8, C9, C10) -/

/-- The spec's distance-categorization rules, transcribed in their stated
order (rule 6 is the explicit `|difference| >= 3` case; the trailing branch
is unreachable). -/
def likertClaimCategory (m h : ℤ) : String :=
  if m = 0 ∧ h ≥ 1 then "Error Detection Discrepancy"
  else if m ≥ 1 ∧ h = 0 then "Error Detection Discrepancy"
  else if (m - h).natAbs = 0 then "No Difference"
  else if (m - h).natAbs = 1 then "Minor Difference"
  else if (m - h).natAbs = 2 then "Moderate Difference"
  else if (m - h).natAbs ≥ 3 then "Major Difference"
  else ""

/-- C8 (counterexample): the claim's concrete case `(model=1, human=4) ↦
"Moderate Difference"` contradicts the claim's own rules: `|1 - 4| = 3`, so
rule 6 applies and the code returns "Major Difference". -/
theorem likert_concrete_case_cex :
    (likert_score_feedback 1 4).1 = "Major Difference" ∧
    "Major Difference" ≠ "Moderate Difference" := by
  exact ⟨by rfl, by decide⟩

/-- C8 (amended): for all integer ratings, `likert_score_feedback` applies
exactly the spec's six rules in their stated order; the concrete cases
`(0,3)` and `(3,3)` are as claimed, while `(1,4)` falls under rule 6
(`|1 - 4| = 3`) and yields "Major Difference", not "Moderate Difference". -/
theorem likert_score_feedback_rules :
    (∀ m h : ℤ, (likert_score_feedback m h).1 = likertClaimCategory m h) ∧
    (likert_score_feedback 0 3).1 = "Error Detection Discrepancy" ∧
    (likert_score_feedback 3 3).1 = "No Difference" ∧
    (likert_score_feedback 1 4).1 = "Major Difference" := by
  refine ⟨?_, by rfl, by rfl, by rfl⟩
  intro m h
  unfold likert_score_feedback likertClaimCategory
  split_ifs <;> first | rfl | omega

/-- C9: `Fitting.run` on a non-empty scores collection (one sample, one
criterion assessment, every model call answering) returns the empty
aggregate `([], [])`: `overall_reports` is never appended to, so no
per-criterion quality reports are returned to the caller. -/
theorem fitting_run_returns_empty :
    Fitting_run
      [(0, PyVal.list [PyVal.dict [("criteria", .str "omission"),
        ("score", PyVal.dict [("rating", .num 2), ("reasoning", .str "reason")])]])]
      Option.none (fun _ => some "feedback") = .ok ([], []) := by
  rfl

/-- A well-formed assessment as consumed by `Fitting.run`'s inner loop:
criterion name, integer rating, reasoning text. -/
def mkFittingAssessment (e : String × ℤ × String) : PyVal :=
  .dict [("criteria", .str e.1),
    ("score", .dict [("rating", .num (e.2.1 : ℚ)), ("reasoning", .str e.2.2)])]

/-- The feedback record the inner loop produces for one criterion when the
sample has no truthy human scores. -/
def defaultFeedbackRecord (name : String) (r : ℤ) (quality : PyVal) : PyVal :=
  .dict [("criteria", .str name),
    ("distance", .list [.str (likert_score_feedback r 0).1,
      .str (likert_score_feedback r 0).2]),
    ("quality", quality)]

theorem except_bind_ok {α β : Type} (a : α) (f : α → Except PyErr β) :
    ((Except.ok a : Except PyErr α) >>= f) = f a := rfl

theorem likert_vs_zero (r : ℤ) (h : 0 ≤ r) :
    (likert_score_feedback r 0).1 =
      if r = 0 then "No Difference" else "Error Detection Discrepancy" := by
  unfold likert_score_feedback
  split_ifs <;> first | rfl | omega

theorem fitting_feedback_item_nohuman (model : Nat → Option String) (k : Nat)
    (name : String) (r : ℤ) (reason : String) (s : String)
    (hm : model k = some s) :
    fitting_feedback_item model k (mkFittingAssessment (name, r, reason))
      PyVal.pynone =
      .ok (defaultFeedbackRecord name r (.str (pyStripWs s)), k + 1) := by
  unfold fitting_feedback_item Fitting_reasoning_feedback
  rw [hm]
  rfl

theorem fitting_feedback_loop_nohuman (model : Nat → Option String)
    (hm : ∀ j, ∃ s, model j = some s) :
    ∀ (data : List (String × ℤ × String)) (k : Nat),
      ∃ out k2,
        fitting_feedback_loop model (data.map mkFittingAssessment) PyVal.pynone k =
          .ok (out, k2) ∧
        out.length = data.length ∧
        ∀ i (h : i < data.length), ∃ q,
          out[i]? = some (defaultFeedbackRecord (data.get ⟨i, h⟩).1
            (data.get ⟨i, h⟩).2.1 q) := by
  intro data
  induction data with
  | nil =>
    intro k
    exact ⟨[], k, rfl, rfl, fun i h => absurd h (by simp)⟩
  | cons e rest ih =>
    obtain ⟨name, r, reason⟩ := e
    intro k
    obtain ⟨s, hs⟩ := hm k
    obtain ⟨out, k2, hloop, hlen, hidx⟩ := ih (k + 1)
    refine ⟨defaultFeedbackRecord name r (.str (pyStripWs s)) :: out, k2, ?_,
      by simpa using hlen, ?_⟩
    · show (fitting_feedback_item model k (mkFittingAssessment (name, r, reason))
          PyVal.pynone >>= fun p =>
            fitting_feedback_loop model (rest.map mkFittingAssessment)
              PyVal.pynone p.2 >>= fun t => .ok (p.1 :: t.1, t.2)) = _
      rw [fitting_feedback_item_nohuman model k name r reason s hs, except_bind_ok]
      show (fitting_feedback_loop model (rest.map mkFittingAssessment)
          PyVal.pynone (k + 1) >>= fun t =>
            .ok (defaultFeedbackRecord name r (.str (pyStripWs s)) :: t.1, t.2)) = _
      rw [hloop, except_bind_ok]
    · intro i h
      match i with
      | 0 => exact ⟨.str (pyStripWs s), by simp⟩
      | Nat.succ i0 =>
        obtain ⟨q, hq⟩ := hidx i0 (by simpa using h)
        exact ⟨q, by simpa using hq⟩

/-- C10: when the human-scores collection handed to `Fitting.run` is `None`
or empty (both falsy, so `run` passes `None` into the per-criterion loop),
every criterion comparison uses the default human rating `0` and empty human
reasoning, so the recorded categorical distance is "No Difference" when the
model rating is `0` and "Error Detection Discrepancy" for every model rating
`≥ 1` — missing human judgments behave exactly like a human who found no
errors. -/
theorem fitting_missing_human_defaults (data : List (String × ℤ × String))
    (model : Nat → Option String) (k : Nat)
    (hm : ∀ j, ∃ s, model j = some s)
    (hr : ∀ e ∈ data, 0 ≤ e.2.1) :
    humanTruthy Option.none = false ∧ humanTruthy (some []) = false ∧
    ∃ out k2,
      fitting_feedback_loop model (data.map mkFittingAssessment) PyVal.pynone k =
        .ok (out, k2) ∧
      out.length = data.length ∧
      ∀ i (h : i < data.length), ∃ q,
        out[i]? = some (.dict [("criteria", .str (data.get ⟨i, h⟩).1),
          ("distance", .list [.str (if (data.get ⟨i, h⟩).2.1 = 0 then "No Difference"
            else "Error Detection Discrepancy"),
            .str (likert_score_feedback (data.get ⟨i, h⟩).2.1 0).2]),
          ("quality", q)]) := by
  refine ⟨rfl, rfl, ?_⟩
  obtain ⟨out, k2, hloop, hlen, hidx⟩ := fitting_feedback_loop_nohuman model hm data k
  refine ⟨out, k2, hloop, hlen, ?_⟩
  intro i h
  obtain ⟨q, hq⟩ := hidx i h
  refine ⟨q, ?_⟩
  rw [hq]
  unfold defaultFeedbackRecord
  rw [likert_vs_zero _ (hr _ (data.get_mem i h))]

/-- Concrete input for the C10 witness. -/
def c10data : List (String × ℤ × String) := [("omission", 2, "why")]

/-- Witness for C10 at `c10data` with an always-answering oracle. -/
theorem fitting_missing_human_defaults_witness :
    ((∀ j : Nat, ∃ s, (fun _ : Nat => some "fb") j = some s) ∧
      (∀ e ∈ c10data, 0 ≤ e.2.1)) ∧
    (humanTruthy Option.none = false ∧ humanTruthy (some []) = false ∧
      ∃ out k2,
        fitting_feedback_loop (fun _ => some "fb")
          (c10data.map mkFittingAssessment) PyVal.pynone 0 = .ok (out, k2) ∧
        out.length = c10data.length ∧
        ∀ i (h : i < c10data.length), ∃ q,
          out[i]? = some (.dict [("criteria", .str (c10data.get ⟨i, h⟩).1),
            ("distance", .list [.str (if (c10data.get ⟨i, h⟩).2.1 = 0
              then "No Difference" else "Error Detection Discrepancy"),
              .str (likert_score_feedback (c10data.get ⟨i, h⟩).2.1 0).2]),
            ("quality", q)])) := by
  refine ⟨⟨fun j => ⟨"fb", rfl⟩, by decide⟩, ?_⟩
  exact fitting_missing_human_defaults c10data (fun _ => some "fb") 0
    (fun j => ⟨"fb", rfl⟩) (by decide)

/-! ## Claim about the Model Invoker (C4) -/

/-- C4: `call_model_with_retry` makes some number `j ≤ max_attempts` of
consecutive attempts; the trace is exactly one block per attempt — the
attempt itself, a backoff sleep of `2^(attempt+1) + jitter` only when that
attempt failed with a "429" message, and the fixed `base_delay` sleep after
every attempt regardless of outcome; every non-final attempt failed with a
429 signal (so nothing else is ever retried); and the function returns
normally in every case — the reply of a final successful attempt, or the
`None` sentinel after either `max_attempts` exhausted 429 failures or a
first non-429 error, which ends the loop immediately.  The jitter is at most
one second. -/
theorem call_model_with_retry_spec (call : Nat → CallOutcome)
    (jitterMs : Nat → Nat) (max_attempts : Nat) (base_delay : ℚ)
    (hj : ∀ i, jitterMs i ≤ 1000) :
    ∃ j, j ≤ max_attempts ∧
      (call_model_with_retry call jitterMs max_attempts base_delay).2 =
        (List.range j).flatMap (attemptBlock call jitterMs base_delay) ∧
      (∀ i, i + 1 < j → is429Err call i) ∧
      ((∃ r, (call_model_with_retry call jitterMs max_attempts base_delay).1 =
          some r ∧ 0 < j ∧ call (j - 1) = .ok r) ∨
        ((call_model_with_retry call jitterMs max_attempts base_delay).1 =
            Option.none ∧
          ((j = max_attempts ∧ ∀ i, i < j → is429Err call i) ∨
            (0 < j ∧ ∃ m, call (j - 1) = .err m ∧ contains429 m = false)))) ∧
      (∀ i, 2 ^ (i + 1) ≤ backoffSleep jitterMs i ∧
        backoffSleep jitterMs i ≤ 2 ^ (i + 1) + 1) := by
  obtain ⟨j, hj1, htr, hmid, hres⟩ :=
    retryAux_spec call jitterMs base_delay max_attempts 0
  refine ⟨j, hj1, ?_, ?_, ?_, ?_⟩
  · rw [List.range_eq_range']
    exact htr
  · intro i hi
    exact hmid i (by omega) (by omega)
  · rcases hres with ⟨r, h1, h2, h3⟩ | ⟨h1, h2⟩
    · exact Or.inl ⟨r, h1, h2, by simpa using h3⟩
    · refine Or.inr ⟨h1, ?_⟩
      rcases h2 with ⟨ha, hb⟩ | ⟨ha, m, hb, hc⟩
      · exact Or.inl ⟨ha, fun i hi => hb i (by omega) (by omega)⟩
      · exact Or.inr ⟨ha, m, by simpa using hb, hc⟩
  · intro i
    unfold backoffSleep
    constructor
    · have h0 : (0:ℚ) ≤ (jitterMs i : ℚ) / 1000 := by positivity
      linarith
    · have h1 : (jitterMs i : ℚ) / 1000 ≤ 1 := by
        rw [div_le_one (by norm_num)]
        exact_mod_cast hj i
      linarith

/-- Witness for C4: an oracle that always raises a 429-signalling error, two
allowed attempts, `base_delay = 3`, jitter `250`ms. -/
theorem call_model_with_retry_spec_witness :
    (∀ i : Nat, (fun _ : Nat => 250) i ≤ 1000) ∧
    (∃ j, j ≤ 2 ∧
      (call_model_with_retry (fun _ => .err "HTTP Error 429")
        (fun _ => 250) 2 3).2 =
        (List.range j).flatMap (attemptBlock (fun _ => .err "HTTP Error 429")
          (fun _ => 250) 3) ∧
      (∀ i, i + 1 < j → is429Err (fun _ => .err "HTTP Error 429") i) ∧
      ((∃ r, (call_model_with_retry (fun _ => .err "HTTP Error 429")
          (fun _ => 250) 2 3).1 = some r ∧ 0 < j ∧
          (fun _ : Nat => CallOutcome.err "HTTP Error 429") (j - 1) = .ok r) ∨
        ((call_model_with_retry (fun _ => .err "HTTP Error 429")
            (fun _ => 250) 2 3).1 = Option.none ∧
          ((j = 2 ∧ ∀ i, i < j → is429Err (fun _ => .err "HTTP Error 429") i) ∨
            (0 < j ∧ ∃ m, (fun _ : Nat => CallOutcome.err "HTTP Error 429") (j - 1) =
              .err m ∧ contains429 m = false)))) ∧
      (∀ i, 2 ^ (i + 1) ≤ backoffSleep (fun _ => 250) i ∧
        backoffSleep (fun _ => 250) i ≤ 2 ^ (i + 1) + 1)) := by
  refine ⟨fun i => by norm_num, ?_⟩
  exact call_model_with_retry_spec (fun _ => .err "HTTP Error 429")
    (fun _ => 250) 2 3 (fun i => by norm_num)

/-! ## Claim about the Response Parser (C5) -/

/-- A payload wrapped in a markdown ```json code fence. -/
def fenceWrap (p : String) : String := "```json\n" ++ p ++ "\n```"

theorem list_dropWhile_cons_false {P : Char → Bool} {c : Char} {t : List Char}
    (h : P c = false) : (c :: t).dropWhile P = c :: t :=
  List.dropWhile_cons_of_neg (by simp [h])

theorem backtick3_contains_false {c : Char}
    (h : fenceJsonChars.contains c = false) :
    backtick3Chars.contains c = false := by
  cases hb : backtick3Chars.contains c with
  | false => rfl
  | true =>
    exfalso
    have hmem : c ∈ backtick3Chars := List.elem_iff.mp hb
    have hsub : ∀ x ∈ backtick3Chars, x ∈ fenceJsonChars := by decide
    have h2 : fenceJsonChars.contains c = true := List.elem_iff.mpr (hsub c hmem)
    rw [h] at h2
    exact Bool.noConfusion h2

/-- `str.strip(chars)` leaves a list alone when neither end is in the set. -/
theorem pyStripList_id {chars l : List Char}
    (h1 : ∀ c, l.head? = some c → chars.contains c = false)
    (h2 : ∀ c, l.getLast? = some c → chars.contains c = false) :
    pyStripList chars l = l := by
  unfold pyStripList
  cases l with
  | nil => rfl
  | cons c t =>
    rw [list_dropWhile_cons_false (h1 c rfl)]
    cases hr : (c :: t).reverse with
    | nil => exact absurd hr (by simp)
    | cons c2 t2 =>
      have hlast : (c :: t).getLast? = some c2 := by
        rw [← List.head?_reverse, hr]; rfl
      rw [list_dropWhile_cons_false (h2 c2 hlast)]
      have hb := congrArg List.reverse hr
      rw [List.reverse_reverse] at hb
      exact hb.symm

/-- `str.strip(chars)` on `l₁ ++ x ++ l₃` when stripping stops inside `l₁`
and inside `l₃`. -/
theorem pyStripList_concat (chars l₁ x l₃ : List Char)
    (h1 : l₁.dropWhile (fun c => chars.contains c) ≠ [])
    (h3 : l₃.reverse.dropWhile (fun c => chars.contains c) ≠ []) :
    pyStripList chars (l₁ ++ x ++ l₃) =
      l₁.dropWhile (fun c => chars.contains c) ++ x ++
        (l₃.reverse.dropWhile (fun c => chars.contains c)).reverse := by
  unfold pyStripList
  rw [List.append_assoc, List.dropWhile_append,
    if_neg (by simpa [List.isEmpty_iff] using h1)]
  rw [List.reverse_append, List.reverse_append, List.append_assoc,
    List.dropWhile_append, if_neg (by simpa [List.isEmpty_iff] using h3)]
  simp [List.reverse_append, List.append_assoc]

/-- `str.strip(chars)` on `l₁ ++ x ++ l₃` when `l₁` and `l₃` are stripped
away entirely and `x` is kept whole. -/
theorem pyStripList_concat_drop (chars l₁ x l₃ : List Char)
    (h1 : l₁.dropWhile (fun c => chars.contains c) = [])
    (hxne : x ≠ [])
    (hx : x.dropWhile (fun c => chars.contains c) = x)
    (hxr : x.reverse.dropWhile (fun c => chars.contains c) = x.reverse)
    (h3 : l₃.reverse.dropWhile (fun c => chars.contains c) = []) :
    pyStripList chars (l₁ ++ x ++ l₃) = x := by
  unfold pyStripList
  rw [List.append_assoc, List.dropWhile_append, if_pos (by rw [h1]; rfl)]
  rw [List.dropWhile_append,
    if_neg (by rw [hx]; simpa [List.isEmpty_iff] using hxne), hx,
    List.reverse_append, List.dropWhile_append, if_pos (by rw [h3]; rfl), hxr,
    List.reverse_reverse]

theorem String_data_mk (l : List Char) : (String.mk l).data = l := rfl

/-- The end-character condition of the amended round-trip claim, in
executable form: the character is neither `str.strip()` whitespace nor one
of the fence-strip set ( ` j s o n ). -/
def plainEndChar (c : Char) : Bool :=
  !pyWsChars.contains c && !fenceJsonChars.contains c

theorem contains_eq_false_of_not_mem {l : List Char} {c : Char} (h : c ∉ l) :
    l.contains c = false := by
  cases hb : l.contains c with
  | false => rfl
  | true => exact absurd (List.elem_iff.mp hb) h

theorem plain_end_props {c : Char} {o : Option Char}
    (ho : o.all plainEndChar = true) (hc : o = some c) :
    pyWsChars.contains c = false ∧ fenceJsonChars.contains c = false := by
  subst hc
  simp [Option.all, plainEndChar] at ho
  exact ⟨contains_eq_false_of_not_mem ho.1, contains_eq_false_of_not_mem ho.2⟩

/-- Cleaning is the identity on a payload whose two end characters are
outside both strip sets. -/
theorem cleanResponse_of_plain_ends (p : String) (hne : p.data ≠ [])
    (hh : p.data.head?.all plainEndChar = true)
    (hl : p.data.getLast?.all plainEndChar = true) :
    cleanResponse p = p := by
  have hh1 : ∀ c, p.data.head? = some c →
      pyWsChars.contains c = false ∧ fenceJsonChars.contains c = false :=
    fun c hc => plain_end_props hh hc
  have hl1 : ∀ c, p.data.getLast? = some c →
      pyWsChars.contains c = false ∧ fenceJsonChars.contains c = false :=
    fun c hc => plain_end_props hl hc
  have hW : pyStripList pyWsChars p.data = p.data :=
    pyStripList_id (fun c hc => (hh1 c hc).1) (fun c hc => (hl1 c hc).1)
  have hF : pyStripList fenceJsonChars p.data = p.data :=
    pyStripList_id (fun c hc => (hh1 c hc).2) (fun c hc => (hl1 c hc).2)
  have hB : pyStripList backtick3Chars p.data = p.data :=
    pyStripList_id (fun c hc => backtick3_contains_false (hh1 c hc).2)
      (fun c hc => backtick3_contains_false (hl1 c hc).2)
  have e0 : pyStripWs p = p := by
    unfold pyStripWs pyStripChars
    rw [hW]
  have e1 : pyStripChars fenceJsonChars p = p := by
    unfold pyStripChars
    rw [hF]
  have e2 : pyStripChars backtick3Chars p = p := by
    unfold pyStripChars
    rw [hB]
  unfold cleanResponse
  rw [e0, e1, e2, e0]

/-- Cleaning a ```json-fenced payload with plain end characters recovers the
payload exactly. -/
theorem cleanResponse_fenceWrap (p : String) (hne : p.data ≠ [])
    (hh : p.data.head?.all plainEndChar = true)
    (hl : p.data.getLast?.all plainEndChar = true) :
    cleanResponse (fenceWrap p) = p := by
  have hh1 : ∀ c, p.data.head? = some c →
      pyWsChars.contains c = false ∧ fenceJsonChars.contains c = false :=
    fun c hc => plain_end_props hh hc
  have hl1 : ∀ c, p.data.getLast? = some c →
      pyWsChars.contains c = false ∧ fenceJsonChars.contains c = false :=
    fun c hc => plain_end_props hl hc
  obtain ⟨c0, t0, hpd⟩ : ∃ c0 t0, p.data = c0 :: t0 := by
    cases hq : p.data with
    | nil => exact absurd hq hne
    | cons a b => exact ⟨a, b, rfl⟩
  have hhead : p.data.head? = some c0 := by rw [hpd]; rfl
  obtain ⟨c1, t1, hpr⟩ : ∃ c1 t1, p.data.reverse = c1 :: t1 := by
    cases hq : p.data.reverse with
    | nil => exact absurd (List.reverse_eq_nil_iff.mp hq) hne
    | cons a b => exact ⟨a, b, rfl⟩
  have hlast : p.data.getLast? = some c1 := by
    rw [← List.head?_reverse, hpr]; rfl
  have hxW : p.data.dropWhile (fun c => pyWsChars.contains c) = p.data := by
    rw [hpd]
    exact list_dropWhile_cons_false (hh1 c0 hhead).1
  have hxrW : p.data.reverse.dropWhile (fun c => pyWsChars.contains c) =
      p.data.reverse := by
    rw [hpr]
    exact list_dropWhile_cons_false (hl1 c1 hlast).1
  have hwd : (fenceWrap p).data = "```json\n".data ++ p.data ++ "\n```".data := by
    cases p
    rfl
  have s1 : pyStripList pyWsChars ((fenceWrap p).data) =
      "```json\n".data ++ p.data ++ "\n```".data := by
    rw [hwd, pyStripList_concat _ _ _ _ (by decide) (by decide)]
    rw [(by decide : "```json\n".data.dropWhile
        (fun c => pyWsChars.contains c) = "```json\n".data)]
    rw [(by decide : "\n```".data.reverse.dropWhile
        (fun c => pyWsChars.contains c) = "\n```".data.reverse)]
    rw [List.reverse_reverse]
  have s2 : pyStripList fenceJsonChars
      ("```json\n".data ++ p.data ++ "\n```".data) =
      "\n".data ++ p.data ++ "\n".data := by
    rw [pyStripList_concat _ _ _ _ (by decide) (by decide)]
    rw [(by decide : "```json\n".data.dropWhile
        (fun c => fenceJsonChars.contains c) = "\n".data)]
    rw [(by decide : "\n```".data.reverse.dropWhile
        (fun c => fenceJsonChars.contains c) = "\n".data)]
    rw [(by decide : ("\n".data).reverse = "\n".data)]
  have s3 : pyStripList backtick3Chars ("\n".data ++ p.data ++ "\n".data) =
      "\n".data ++ p.data ++ "\n".data := by
    rw [pyStripList_concat _ _ _ _ (by decide) (by decide)]
    rw [(by decide : "\n".data.dropWhile
        (fun c => backtick3Chars.contains c) = "\n".data)]
    rw [(by decide : ("\n".data).reverse.dropWhile
        (fun c => backtick3Chars.contains c) = ("\n".data).reverse)]
    rw [List.reverse_reverse]
  have s4 : pyStripList pyWsChars ("\n".data ++ p.data ++ "\n".data) = p.data :=
    pyStripList_concat_drop _ _ _ _ (by decide) hne hxW hxrW (by decide)
  unfold cleanResponse pyStripWs pyStripChars
  simp only [String_data_mk, s1, s2, s3, s4]

/-- C5 (counterexample): the valid JSON payload `null` refutes the
round-trip claim: bare, the fence-stripping chain eats its leading `n`
(`str.strip("```json")` strips *characters of the set* ` j s o n), leaving
the undecodable `ull`, while the ```json-fenced form decodes to `null`. -/
theorem fence_roundtrip_cex :
    json_loads "null" = some PyVal.pynone ∧
    json_loads (cleanResponse "null") = Option.none ∧
    json_loads (cleanResponse (fenceWrap "null")) = some PyVal.pynone ∧
    json_loads (cleanResponse "null") ≠ json_loads (cleanResponse (fenceWrap "null")) := by
  have h1 : json_loads (cleanResponse "null") = Option.none := rfl
  have h2 : json_loads (cleanResponse (fenceWrap "null")) = some PyVal.pynone := rfl
  refine ⟨rfl, h1, h2, ?_⟩
  rw [h1, h2]
  simp

/-- C5 (amended): the strip-then-decode chain yields the same value for the
bare and the ```json-fenced payload whenever the payload's first and last
characters lie outside both strip character sets (not whitespace and none of
 ` j s o n ) — in particular for every JSON object or array payload. -/
theorem fence_roundtrip_of_plain_ends (p : String) (hne : p.data ≠ [])
    (hh : p.data.head?.all plainEndChar = true)
    (hl : p.data.getLast?.all plainEndChar = true) :
    json_loads (cleanResponse p) = json_loads (cleanResponse (fenceWrap p)) := by
  rw [cleanResponse_of_plain_ends p hne hh hl,
    cleanResponse_fenceWrap p hne hh hl]

/-- Witness for the amended C5 at the payload `[true]`. -/
theorem fence_roundtrip_of_plain_ends_witness :
    ("[true]".data ≠ [] ∧
      "[true]".data.head?.all plainEndChar = true ∧
      "[true]".data.getLast?.all plainEndChar = true) ∧
    json_loads (cleanResponse "[true]") =
      json_loads (cleanResponse (fenceWrap "[true]")) := by
  refine ⟨⟨by decide, by decide, by decide⟩, ?_⟩
  exact fence_roundtrip_of_plain_ends "[true]" (by decide) (by decide) (by decide)

/-! ## Claims about the Quality Aggregator (C6, C7) -/

/-- Well-formedness of one aggregation input entry, exactly in terms of the
lookups `compute_quality_score` performs: a string criteria name, numeric
certainty and rating, with certainty non-negative and rating in `[0, 5]`. -/
def WFScoreEntry (v : PyVal) : Prop :=
  ∃ (name : String) (c r : ℚ),
    pyGetItem v "criteria" = .ok (.str name) ∧
    pyGetItem v "certainty" = .ok (.num c) ∧
    pyGetItem v "rating" = .ok (.num r) ∧
    0 ≤ c ∧ 0 ≤ r ∧ r ≤ 5

theorem defaultWeights_pos (k : String) : 0 < assocGetD defaultWeights k 1 := by
  unfold assocGetD
  cases h : defaultWeights.lookup k with
  | none => norm_num
  | some v =>
    have hmem : (k, v) ∈ defaultWeights := by
      obtain ⟨l₁, l₂, he, _⟩ := List.lookup_eq_some_iff.mp h
      rw [he]
      exact List.mem_append_right _ (List.mem_cons_self _ _)
    have hv : v = 11/10 ∨ v = 9/10 := by
      simp only [defaultWeights, List.mem_cons, List.not_mem_nil, or_false,
        Prod.mk.injEq] at hmem
      rcases hmem with ⟨_, h1⟩ | ⟨_, h1⟩ | ⟨_, h1⟩ | ⟨_, h1⟩ | ⟨_, h1⟩ | ⟨_, h1⟩ <;>
        simp [h1]
    rcases hv with h1 | h1 <;> simp [h1]

theorem cqs_go_bounds :
    ∀ (l : List PyVal), (∀ v ∈ l, WFScoreEntry v) →
      ∀ n d : ℚ, 0 ≤ n → 0 ≤ d → n ≤ 5 * d →
        ∃ N D, cqs_go defaultWeights l n d = .ok (N, D) ∧
          0 ≤ N ∧ 0 ≤ D ∧ N ≤ 5 * D := by
  intro l
  induction l with
  | nil =>
    intro _ n d h1 h2 h3
    exact ⟨n, d, rfl, h1, h2, h3⟩
  | cons v rest ih =>
    intro hwf n d h1 h2 h3
    obtain ⟨name, c, r, hv1, hv2, hv3, hc0, hr0, hr5⟩ :=
      hwf v (List.mem_cons_self _ _)
    have hstep : cqs_go defaultWeights (v :: rest) n d =
        cqs_go defaultWeights rest
          (n + r * (c * assocGetD defaultWeights (pyUpper name) 1))
          (d + c * assocGetD defaultWeights (pyUpper name) 1) := by
      simp only [cqs_go, hv1, hv2, hv3, pyUpperOf, asNum, except_bind_ok]
    have hipos := defaultWeights_pos (pyUpper name)
    have hterm0 : 0 ≤ c * assocGetD defaultWeights (pyUpper name) 1 := by positivity
    obtain ⟨N, D, he, hN0, hD0, hND⟩ := ih (fun w hw => hwf w (List.mem_cons_of_mem _ hw))
      (n + r * (c * assocGetD defaultWeights (pyUpper name) 1))
      (d + c * assocGetD defaultWeights (pyUpper name) 1)
      (by positivity)
      (by positivity)
      (by nlinarith)
    exact ⟨N, D, by rw [hstep]; exact he, hN0, hD0, hND⟩

/-- C6 (counterexample): `compute_quality_score` performs no rejection or
clamping: a single entry with rating `6` (outside `[0,5]`) and certainty `1`
yields quality `-4/5`, far outside `[1, 10]`. -/
theorem quality_range_cex :
    compute_quality_score
      [PyVal.dict [("criteria", PyVal.str "x"), ("certainty", PyVal.num 1),
        ("rating", PyVal.num 6)]] Option.none = .ok (-(4/5) : ℚ) ∧
    ¬ ((1:ℚ) ≤ -(4/5)) := by
  constructor
  · have hstep : cqs_go defaultWeights
        [PyVal.dict [("criteria", PyVal.str "x"), ("certainty", PyVal.num 1),
          ("rating", PyVal.num 6)]] 0 0 =
        .ok ((0:ℚ) + 6 * (1 * 1), (0:ℚ) + 1 * 1) := rfl
    show (cqs_go defaultWeights
        [PyVal.dict [("criteria", PyVal.str "x"), ("certainty", PyVal.num 1),
          ("rating", PyVal.num 6)]] 0 0 >>= fun p =>
        Except.ok (1 + ((5 - (if p.2 ≠ 0 then p.1 / p.2 else 0)) / 5) * 9)) = _
    rw [hstep, except_bind_ok]
    have hd : ((0:ℚ) + 1 * 1) ≠ 0 := by norm_num
    rw [if_pos hd]
    norm_num
  · norm_num

/-- C6 (amended): the aggregator clamps nothing, but whenever every entry is
well-formed with rating in `[0,5]` and certainty `≥ 0`, the default-weight
quality does lie in `[1, 10]`. -/
theorem quality_in_range_of_valid (scores : List PyVal)
    (hwf : ∀ v ∈ scores, WFScoreEntry v) :
    ∃ q, compute_quality_score scores Option.none = .ok q ∧ 1 ≤ q ∧ q ≤ 10 := by
  obtain ⟨N, D, he, hN0, hD0, hND⟩ :=
    cqs_go_bounds scores hwf 0 0 le_rfl le_rfl (by norm_num)
  refine ⟨1 + ((5 - (if D ≠ 0 then N / D else 0)) / 5) * 9, ?_, ?_, ?_⟩
  · show (cqs_go defaultWeights scores 0 0 >>= fun p =>
        Except.ok (1 + ((5 - (if p.2 ≠ 0 then p.1 / p.2 else 0)) / 5) * 9)) = _
    rw [he, except_bind_ok]
  · by_cases hD : D = 0
    · simp [hD]
      try norm_num
    · have hDpos : 0 < D := lt_of_le_of_ne hD0 (Ne.symm hD)
      have himp : N / D ≤ 5 := by
        rw [div_le_iff₀ hDpos]
        nlinarith
      have himp0 : 0 ≤ N / D := div_nonneg hN0 hD0
      rw [if_pos hD]
      nlinarith
  · by_cases hD : D = 0
    · simp [hD]
      try norm_num
    · have hDpos : 0 < D := lt_of_le_of_ne hD0 (Ne.symm hD)
      have himp : N / D ≤ 5 := by
        rw [div_le_iff₀ hDpos]
        nlinarith
      have himp0 : 0 ≤ N / D := div_nonneg hN0 hD0
      rw [if_pos hD]
      nlinarith

/-- Witness for the amended C6 at a concrete well-formed input. -/
theorem quality_in_range_of_valid_witness :
    (∀ v ∈ [PyVal.dict [("criteria", PyVal.str "hallucination"),
        ("certainty", PyVal.num 1), ("rating", PyVal.num 0)]], WFScoreEntry v) ∧
    ∃ q, compute_quality_score
        [PyVal.dict [("criteria", PyVal.str "hallucination"),
          ("certainty", PyVal.num 1), ("rating", PyVal.num 0)]] Option.none =
        .ok q ∧ 1 ≤ q ∧ q ≤ 10 := by
  have hwf : ∀ v ∈ [PyVal.dict [("criteria", PyVal.str "hallucination"),
      ("certainty", PyVal.num 1), ("rating", PyVal.num 0)]], WFScoreEntry v := by
    intro v hv
    rw [List.mem_singleton] at hv
    subst hv
    exact ⟨"hallucination", 1, 0, rfl, rfl, rfl, by norm_num, le_rfl, by norm_num⟩
  exact ⟨hwf, quality_in_range_of_valid _ hwf⟩

/-- Importance weight as the claim states it: 1.1 for omission,
hallucination, irrelevance, 0.9 for repetition, incoherence, language,
1.0 otherwise, matching criterion names case-insensitively.  This is the
spec-side definition used to compare against the code. -/
def claimImportance (name : String) : ℚ :=
  if pyLower name = "omission" ∨ pyLower name = "hallucination" ∨
      pyLower name = "irrelevance" then 11/10
  else if pyLower name = "repetition" ∨ pyLower name = "incoherence" ∨
      pyLower name = "language" then 9/10
  else 1

/-- Spec-side accumulation over typed entries `(criteria, certainty, rating)`. -/
def cqs_spec_go : List (String × ℚ × ℚ) → ℚ × ℚ → ℚ × ℚ
  | [], acc => acc
  | e :: rest, (n, d) =>
    cqs_spec_go rest (n + e.2.2 * (e.2.1 * claimImportance e.1),
      d + e.2.1 * claimImportance e.1)

/-- The aggregation as the claim describes it, with the case-insensitive
default importance weights actually applied. -/
def compute_quality_score_spec (scores : List (String × ℚ × ℚ)) : ℚ :=
  let acc := cqs_spec_go scores (0, 0)
  let impact := if acc.2 ≠ 0 then acc.1 / acc.2 else 0
  1 + ((5 - impact) / 5) * 9

/-- C7: the claimed weights are never applied.  `compute_quality_score`
upper-cases each criteria name before looking it up in the lowercase-keyed
default table, so every lookup misses and every entry gets importance 1.0:
the mixed input (omission rated 5, language rated 0, both certainty 1)
yields quality 11/2 from the code, while the claim's weighting (1.1 for
omission, 0.9 for language) yields 101/20. -/
theorem importance_weights_never_applied :
    compute_quality_score
      [PyVal.dict [("criteria", PyVal.str "omission"), ("certainty", PyVal.num 1),
        ("rating", PyVal.num 5)],
       PyVal.dict [("criteria", PyVal.str "language"), ("certainty", PyVal.num 1),
        ("rating", PyVal.num 0)]] Option.none = .ok ((11:ℚ)/2) ∧
    compute_quality_score_spec [("omission", 1, 5), ("language", 1, 0)] =
      (101:ℚ)/20 ∧
    ((11:ℚ)/2) ≠ (101:ℚ)/20 := by
  refine ⟨?_, ?_, by norm_num⟩
  · have hstep : cqs_go defaultWeights
        [PyVal.dict [("criteria", PyVal.str "omission"), ("certainty", PyVal.num 1),
          ("rating", PyVal.num 5)],
         PyVal.dict [("criteria", PyVal.str "language"), ("certainty", PyVal.num 1),
          ("rating", PyVal.num 0)]] 0 0 =
        .ok ((0:ℚ) + 5 * (1 * 1) + 0 * (1 * 1), (0:ℚ) + 1 * 1 + 1 * 1) := rfl
    show (cqs_go defaultWeights
        [PyVal.dict [("criteria", PyVal.str "omission"), ("certainty", PyVal.num 1),
          ("rating", PyVal.num 5)],
         PyVal.dict [("criteria", PyVal.str "language"), ("certainty", PyVal.num 1),
          ("rating", PyVal.num 0)]] 0 0 >>= fun p =>
        Except.ok (1 + ((5 - (if p.2 ≠ 0 then p.1 / p.2 else 0)) / 5) * 9)) = _
    rw [hstep, except_bind_ok]
    have hd : ((0:ℚ) + 1 * 1 + 1 * 1) ≠ 0 := by norm_num
    rw [if_pos hd]
    norm_num
  · have hi1 : claimImportance "omission" = 11/10 := by
      rw [claimImportance, if_pos]
      exact Or.inl (by decide)
    have hi2 : claimImportance "language" = 9/10 := by
      rw [claimImportance, if_neg, if_pos]
      · exact Or.inr (Or.inr (by decide))
      · intro h
        rcases h with h | h | h <;> exact absurd h (by decide)
    simp only [compute_quality_score_spec, cqs_spec_go, hi1, hi2]
    norm_num
